import Mathlib

/-!
Shallow embedding of the session protocol engine in src/app/deviceFactory.js
(class Device): the device record, the inbound dispatch `_handleResponse`,
the outbound envelope builders `_sendBindRequest` and `_sendRequest`, and
the trace semantics of processing a sequence of inbound datagrams.

The cryptography provider (app/encryptionService.js) and the command catalog
are external collaborators of the core; they are modelled abstractly by the
`Crypto` structure, matching the interface the core invokes.
JSON field absence (JS `undefined`) is modelled by `Option`; JS string
truthiness (empty string and `undefined` are falsy) by `jsTruthy`.
A JS property read such as `pack.dat[i]` past the end of the list yields
`undefined`, modelled by `Option Int` values stored in the properties map.
A thrown JS exception (TypeError from reading a field of `undefined`, or a
parse or decrypt failure) aborts the handler; it is modelled by the `err`
field of `StepResult`, with the state as it was at the throw point.
-/

/-- JS exceptions that can escape the message handler: a JSON.parse failure,
a decrypt failure, or a TypeError from indexing an `undefined` field. -/
inductive JsError where
  | syntaxError
  | decodeError
  | typeError
  deriving Repr, DecidableEq

/-- JS truthiness of an optional string: `undefined` and the empty string
are falsy, every other string is truthy. -/
def jsTruthy : Option String → Bool
  | none => false
  | some s => s ≠ ""

/-- The properties object `this.device.props`: a key maps to `none` when the
key was never assigned, and to `some v` when it was assigned value `v`
(where `v = none` models an assigned JS `undefined`). -/
def Props : Type := String → Option (Option Int)

/-- The empty properties object `{}` assigned by `_setDevice`. -/
def emptyProps : Props := fun _ => none

/-- Property assignment `props[k] = v`. -/
def propsWrite (ps : Props) (k : String) (v : Option Int) : Props :=
  fun c => if c = k then some v else ps c

/-- The loop `cols.forEach((col, i) => props[col] = vals[i])`: each code in
`cols` is written in order with the positionally aligned value, the value
being JS `undefined` (here `none`) when `vals` is shorter than `cols`. -/
def applyPairs : Props → List String → List Int → Props
  | ps, [], _ => ps
  | ps, c :: cs, vs => applyPairs (propsWrite ps c vs.head?) cs vs.tail

/-- The `this.device` record built up by `_setDevice` and `_confirmBinding`.
All fields start as JS `undefined` (the constructor assigns `{}`). -/
structure Device where
  id : Option String := none
  name : Option String := none
  address : Option String := none
  port : Option Nat := none
  bound : Bool := false
  key : Option String := none
  props : Props := emptyProps

/-- The decrypted inner payload (`pack`), a JSON object dispatched on its
`t` field; absent fields are `none`. -/
structure Pack where
  t : String := ""
  cid : Option String := none
  name : Option String := none
  ver : Option String := none
  key : Option String := none
  cols : Option (List String) := none
  dat : Option (List Int) := none
  opt : Option (List String) := none
  p : Option (List Int) := none
  val : Option (List Int) := none

/-- The outer inbound envelope (the parsed `message`); only the fields the
handler reads are modelled. -/
structure Envelope where
  cid : Option String := none
  i : Option Int := none

/-- The `rinfo` argument of the message handler: source address and port of
the datagram. -/
structure RInfo where
  address : String
  port : Nat

/-- An outbound payload handed to the cryptography provider (`bind`,
`status` or `cmd`). -/
structure OutPack where
  t : String := ""
  mac : Option String := none
  uid : Option Nat := none
  cols : Option (List Nat) := none
  opt : Option (List String) := none
  p : Option (List Int) := none
  deriving Repr, DecidableEq

/-- The outbound wire envelope built by `_sendBindRequest` and
`_sendRequest`. `tag = none` means the `tag` field is absent from the JSON
object; `pack = none` models the unreachable branch where no encrypt
operation ran and the field stays `undefined`. -/
structure Request where
  tcid : Option String
  cid : String
  i : Nat
  t : String
  uid : Nat
  tag : Option String
  pack : Option String
  deriving Repr, DecidableEq

/-- Modelled from the spec: the external cryptography provider
(app/encryptionService.js, not under src/). Version 1 encrypt returns a
ciphertext; version 2 encrypt returns a ciphertext together with an
authentication tag. The optional second argument is the session key,
absent for handshake-phase packets. -/
structure Crypto where
  encrypt : OutPack → Option String → String
  encrypt_v2 : OutPack → Option String → String × String

/-- The mutable session state of a `Device` instance. -/
structure SessionState where
  device : Device
  encryptionVersion : Nat
  tag : String
  packetSentNo : Nat
  packetReceivedNo : Nat

/-- Session state right after the constructor: `this.device = {}`,
`this.encryptionVersion = 1`, `this.tag` the empty string, packet counters
zero. -/
def initState : SessionState :=
  { device := {}, encryptionVersion := 1, tag := "", packetSentNo := 0,
    packetReceivedNo := 0 }

/-- Observable side effects of processing one inbound datagram. -/
inductive Effect where
  | logNewDevice (id : Option String) (address : Option String)
  | sent (req : Request)
  | logBound (id : Option String)
  | startStatusInterval (ms : Nat)
  | onConnected
  | onStatus
  | onUpdate
  | logUnknown (t : String)
  deriving Repr, DecidableEq

/-- Result of one handler invocation: the state when the handler returned or
threw, the effects emitted before that point, and the escaped exception if
one was thrown. -/
structure StepResult where
  state : SessionState
  effects : List Effect
  err : Option JsError

/-- `_setDevice(id, name, address, port)`: overwrites id, name, address and
port, resets `bound` to false and `props` to the empty object; the `key`
field is not touched. -/
def setDevice (d : Device) (id : Option String) (nm : Option String)
    (address : String) (port : Nat) : Device :=
  { id := id, name := nm, address := some address, port := some port,
    bound := false, key := d.key, props := emptyProps }

/-- `_confirmBinding(id, key)`: sets `bound` to true and stores the key; the
`id` parameter is accepted but never used by the body. -/
def confirmBinding (d : Device) (_id : Option String) (key : Option String) :
    Device :=
  { d with bound := true, key := key }

/-- The test `pack.ver && pack.ver.toString().startsWith("V2.")`: the
version string is truthy and its characters begin with `V2.`. -/
def verIsV2 (v : Option String) : Bool :=
  match v with
  | none => false
  | some s => s ≠ "" && List.isPrefixOf "V2.".data s.data

/-- The payload `{ mac: id, t: "bind", uid: 0 }` built by
`_sendBindRequest`. -/
def bindMsg (id : Option String) : OutPack :=
  { t := "bind", mac := id, uid := some 0 }

/-- `_sendBindRequest`: encrypt the bind payload with the encrypt operation
of the negotiated version (no key), record the returned tag in `this.tag`
(empty under version 1), and build the `i = 1` envelope, including the
`tag` field exactly when `this.tag` is non-empty. Returns the updated state
and the envelope handed to the socket. -/
def sendBindRequest (crypto : Crypto) (s : SessionState) :
    SessionState × Request :=
  let msg := bindMsg s.device.id
  let et :=
    if s.encryptionVersion = 1 then (some (crypto.encrypt msg none), "")
    else if s.encryptionVersion = 2 then
      let e := crypto.encrypt_v2 msg none
      (some e.1, e.2)
    else (none, s.tag)
  let req : Request :=
    if et.2 = "" then
      { tcid := s.device.id, cid := "app", i := 1, t := "pack", uid := 0,
        tag := none, pack := et.1 }
    else
      { tcid := s.device.id, cid := "app", i := 1, t := "pack", uid := 0,
        tag := some et.2, pack := et.1 }
  ({ s with tag := et.2, packetSentNo := s.packetSentNo + 1 }, req)

/-- `_sendRequest(message)`: encrypt a steady-state payload with the
negotiated version and the stored device key, record the tag, and build the
`i = 0` envelope, including the `tag` field exactly when the tag is
non-empty. -/
def sendRequest (crypto : Crypto) (s : SessionState) (msg : OutPack) :
    SessionState × Request :=
  let et :=
    if s.encryptionVersion = 1 then
      (some (crypto.encrypt msg s.device.key), "")
    else if s.encryptionVersion = 2 then
      let e := crypto.encrypt_v2 msg s.device.key
      (some e.1, e.2)
    else (none, s.tag)
  let req : Request :=
    if et.2 = "" then
      { tcid := s.device.id, cid := "app", i := 0, t := "pack", uid := 0,
        tag := none, pack := et.1 }
    else
      { tcid := s.device.id, cid := "app", i := 0, t := "pack", uid := 0,
        tag := some et.2, pack := et.1 }
  ({ s with tag := et.2, packetSentNo := s.packetSentNo + 1 }, req)

/-- One inbound datagram as seen by `_handleResponse`: the result of
`JSON.parse` on the raw bytes followed by the decrypt operation of the
negotiated version (both external to the dispatch logic; a failure of
either is an `Except.error`), together with the datagram source `rinfo`. -/
structure Msg where
  input : Except JsError (Envelope × Pack)
  rinfo : RInfo

/-- `_handleResponse(msg, rinfo)`: increment the received counter, then
dispatch on the decrypted payload kind, mirroring the if-chain of the
source. A `dev` payload switches to version 2 and takes the id from the
payload when still on version 1 with a `V2.`-prefixed version string,
otherwise takes the id from the envelope, then sends a bind request. A
`bindok` payload is honored only when `this.device.id` is truthy. `dat` and
`res` payloads are applied to the properties only when `this.device.bound`
is truthy, reading values from `dat`, respectively from `p` when present
and from `val` otherwise; indexing an absent list throws a TypeError.
Anything else is logged as unknown. -/
def handleResponse (crypto : Crypto) (s : SessionState) (m : Msg) :
    StepResult :=
  let s0 := { s with packetReceivedNo := s.packetReceivedNo + 1 }
  match m.input with
  | Except.error e => { state := s0, effects := [], err := some e }
  | Except.ok (message, pack) =>
    if pack.t = "dev" then
      let s1 :=
        if s0.encryptionVersion = 1 && verIsV2 pack.ver then
          { s0 with encryptionVersion := 2,
                    device := setDevice s0.device pack.cid pack.name
                      m.rinfo.address m.rinfo.port }
        else
          { s0 with device := setDevice s0.device message.cid pack.name
                      m.rinfo.address m.rinfo.port }
      let sb := sendBindRequest crypto s1
      { state := sb.1,
        effects := [Effect.logNewDevice s1.device.id s1.device.address,
                    Effect.sent sb.2],
        err := none }
    else if pack.t = "bindok" && jsTruthy s0.device.id then
      { state := { s0 with
                    device := confirmBinding s0.device message.cid pack.key },
        effects := [Effect.logBound s0.device.id,
                    Effect.startStatusInterval 3000, Effect.onConnected],
        err := none }
    else if pack.t = "dat" && s0.device.bound then
      match pack.cols with
      | none => { state := s0, effects := [], err := some JsError.typeError }
      | some cols =>
        match pack.dat with
        | some vs =>
          { state := { s0 with device := { s0.device with
                        props := applyPairs s0.device.props cols vs } },
            effects := [Effect.onStatus], err := none }
        | none =>
          if cols.isEmpty then
            { state := s0, effects := [Effect.onStatus], err := none }
          else
            { state := s0, effects := [], err := some JsError.typeError }
    else if pack.t = "res" && s0.device.bound then
      match pack.opt with
      | none => { state := s0, effects := [], err := some JsError.typeError }
      | some opts =>
        match pack.p with
        | some ps =>
          { state := { s0 with device := { s0.device with
                        props := applyPairs s0.device.props opts ps } },
            effects := [Effect.onUpdate], err := none }
        | none =>
          match pack.val with
          | some vs =>
            { state := { s0 with device := { s0.device with
                          props := applyPairs s0.device.props opts vs } },
              effects := [Effect.onUpdate], err := none }
          | none =>
            if opts.isEmpty then
              { state := s0, effects := [Effect.onUpdate], err := none }
            else
              { state := s0, effects := [], err := some JsError.typeError }
    else
      { state := s0, effects := [Effect.logUnknown pack.t], err := none }

/-- Process a sequence of inbound datagrams in order, accumulating effects.
A thrown exception escapes the socket message listener uncaught, so the run
stops at the first step that reports an error. -/
def run (crypto : Crypto) : SessionState → List Msg → SessionState × List Effect
  | s, [] => (s, [])
  | s, m :: ms =>
    let r := handleResponse crypto s m
    match r.err with
    | some _ => (r.state, r.effects)
    | none =>
      let t := run crypto r.state ms
      (t.1, r.effects ++ t.2)

/-- Number of invocations of the connected-callback among a list of
effects. -/
def countConnected : List Effect → Nat
  | [] => 0
  | Effect.onConnected :: es => countConnected es + 1
  | _ :: es => countConnected es

/-- Whether a datagram decodes to a `dev` payload. -/
def msgIsDev (m : Msg) : Bool :=
  match m.input with
  | Except.ok (_, pack) => pack.t == "dev"
  | Except.error _ => false

/-- Whether a datagram decodes to a `dev` payload whose version string has
the `V2.` prefix. -/
def msgIsDevV2 (m : Msg) : Bool :=
  match m.input with
  | Except.ok (_, pack) => pack.t == "dev" && verIsV2 pack.ver
  | Except.error _ => false

theorem applyPairs_not_mem (P : Props) (cs : List String) (vs : List Int)
    (c : String) (h : c ∉ cs) : applyPairs P cs vs c = P c := by
  induction cs generalizing P vs with
  | nil => rfl
  | cons c0 cs ih =>
    have hne : c ≠ c0 := fun he => h (he ▸ List.mem_cons_self c0 cs)
    have hnm : c ∉ cs := fun hm => h (List.mem_cons_of_mem c0 hm)
    rw [applyPairs, ih _ _ hnm, propsWrite, if_neg hne]

theorem applyPairs_mem_indep (P Q : Props) (cs : List String) (vs : List Int)
    (c : String) (h : c ∈ cs) :
    applyPairs P cs vs c = applyPairs Q cs vs c := by
  induction cs generalizing P Q vs with
  | nil => exact absurd h (List.not_mem_nil c)
  | cons c0 cs ih =>
    by_cases hm : c ∈ cs
    · rw [applyPairs, applyPairs]
      exact ih _ _ _ hm
    · have he : c = c0 := by
        rcases List.mem_cons.mp h with h1 | h2
        · exact h1
        · exact absurd h2 hm
      rw [applyPairs, applyPairs, applyPairs_not_mem _ _ _ _ hm,
        applyPairs_not_mem _ _ _ _ hm, propsWrite, propsWrite, if_pos he,
        if_pos he]

theorem applyPairs_ne_none (P : Props) (cs : List String) (vs : List Int)
    (c : String) (h : P c ≠ none) : applyPairs P cs vs c ≠ none := by
  induction cs generalizing P vs with
  | nil => exact h
  | cons c0 cs ih =>
    rw [applyPairs]
    apply ih
    rw [propsWrite]
    by_cases he : c = c0
    · rw [if_pos he]; exact Option.some_ne_none _
    · rw [if_neg he]; exact h

theorem step_err (crypto : Crypto) (s : SessionState) (e : JsError)
    (ri : RInfo) :
    handleResponse crypto s { input := Except.error e, rinfo := ri } =
      { state := { s with packetReceivedNo := s.packetReceivedNo + 1 },
        effects := [], err := some e } := rfl

theorem step_dev_v2 (crypto : Crypto) (s : SessionState) (message : Envelope)
    (pack : Pack) (ri : RInfo) (ht : pack.t = "dev")
    (h1 : s.encryptionVersion = 1) (h2 : verIsV2 pack.ver = true) :
    handleResponse crypto s { input := Except.ok (message, pack), rinfo := ri }
      =
      (let s1 : SessionState :=
        { device := setDevice s.device pack.cid pack.name ri.address ri.port,
          encryptionVersion := 2, tag := s.tag,
          packetSentNo := s.packetSentNo,
          packetReceivedNo := s.packetReceivedNo + 1 }
      { state := (sendBindRequest crypto s1).1,
        effects := [Effect.logNewDevice pack.cid (some ri.address),
                    Effect.sent (sendBindRequest crypto s1).2],
        err := none }) := by
  simp [handleResponse, ht, h1, h2, setDevice]

theorem step_dev_v1 (crypto : Crypto) (s : SessionState) (message : Envelope)
    (pack : Pack) (ri : RInfo) (ht : pack.t = "dev")
    (h2 : ¬(s.encryptionVersion = 1 ∧ verIsV2 pack.ver = true)) :
    handleResponse crypto s { input := Except.ok (message, pack), rinfo := ri }
      =
      (let s1 : SessionState :=
        { device := setDevice s.device message.cid pack.name ri.address
            ri.port,
          encryptionVersion := s.encryptionVersion, tag := s.tag,
          packetSentNo := s.packetSentNo,
          packetReceivedNo := s.packetReceivedNo + 1 }
      { state := (sendBindRequest crypto s1).1,
        effects := [Effect.logNewDevice message.cid (some ri.address),
                    Effect.sent (sendBindRequest crypto s1).2],
        err := none }) := by
  have hb : (decide (s.encryptionVersion = 1) && verIsV2 pack.ver) = false := by
    rcases Decidable.em (s.encryptionVersion = 1) with h | h
    · have : verIsV2 pack.ver = false := by
        rcases Bool.eq_false_or_eq_true (verIsV2 pack.ver) with htr | hf
        · exact absurd ⟨h, htr⟩ h2
        · exact hf
      simp [this]
    · simp [h]
  simp [handleResponse, ht, hb, setDevice]

theorem step_bindok (crypto : Crypto) (s : SessionState) (message : Envelope)
    (pack : Pack) (ri : RInfo) (ht : pack.t = "bindok")
    (hid : jsTruthy s.device.id = true) :
    handleResponse crypto s { input := Except.ok (message, pack), rinfo := ri }
      =
      { state := { s with
          device := confirmBinding s.device message.cid pack.key,
          packetReceivedNo := s.packetReceivedNo + 1 },
        effects := [Effect.logBound s.device.id,
                    Effect.startStatusInterval 3000, Effect.onConnected],
        err := none } := by
  simp [handleResponse, ht, hid]

theorem step_dat (crypto : Crypto) (s : SessionState) (message : Envelope)
    (pack : Pack) (ri : RInfo) (cols : List String) (vs : List Int)
    (ht : pack.t = "dat") (hb : s.device.bound = true)
    (hc : pack.cols = some cols) (hd : pack.dat = some vs) :
    handleResponse crypto s { input := Except.ok (message, pack), rinfo := ri }
      =
      { state := { s with
          device := { s.device with
            props := applyPairs s.device.props cols vs },
          packetReceivedNo := s.packetReceivedNo + 1 },
        effects := [Effect.onStatus], err := none } := by
  simp [handleResponse, ht, hb, hc, hd]

theorem step_res_p (crypto : Crypto) (s : SessionState) (message : Envelope)
    (pack : Pack) (ri : RInfo) (opts : List String) (ps : List Int)
    (ht : pack.t = "res") (hb : s.device.bound = true)
    (ho : pack.opt = some opts) (hp : pack.p = some ps) :
    handleResponse crypto s { input := Except.ok (message, pack), rinfo := ri }
      =
      { state := { s with
          device := { s.device with
            props := applyPairs s.device.props opts ps },
          packetReceivedNo := s.packetReceivedNo + 1 },
        effects := [Effect.onUpdate], err := none } := by
  simp [handleResponse, ht, hb, ho, hp]

theorem step_res_val (crypto : Crypto) (s : SessionState) (message : Envelope)
    (pack : Pack) (ri : RInfo) (opts : List String) (vs : List Int)
    (ht : pack.t = "res") (hb : s.device.bound = true)
    (ho : pack.opt = some opts) (hp : pack.p = none)
    (hv : pack.val = some vs) :
    handleResponse crypto s { input := Except.ok (message, pack), rinfo := ri }
      =
      { state := { s with
          device := { s.device with
            props := applyPairs s.device.props opts vs },
          packetReceivedNo := s.packetReceivedNo + 1 },
        effects := [Effect.onUpdate], err := none } := by
  simp [handleResponse, ht, hb, ho, hp, hv]

theorem step_unknown (crypto : Crypto) (s : SessionState) (message : Envelope)
    (pack : Pack) (ri : RInfo) (h1 : pack.t ≠ "dev")
    (h2 : pack.t = "bindok" → jsTruthy s.device.id = false)
    (h3 : pack.t = "dat" → s.device.bound = false)
    (h4 : pack.t = "res" → s.device.bound = false) :
    handleResponse crypto s { input := Except.ok (message, pack), rinfo := ri }
      =
      { state := { s with packetReceivedNo := s.packetReceivedNo + 1 },
        effects := [Effect.logUnknown pack.t], err := none } := by
  simp only [handleResponse]
  rw [if_neg h1]
  by_cases hbk : pack.t = "bindok"
  · rw [hbk]
    simp [h2 hbk]
  · rw [if_neg (by simp [hbk])]
    by_cases hdat : pack.t = "dat"
    · rw [hdat]
      simp [h3 hdat]
    · rw [if_neg (by simp [hdat])]
      by_cases hres : pack.t = "res"
      · rw [hres]
        simp [h4 hres]
      · rw [if_neg (by simp [hres])]

theorem step_dat_nocols (crypto : Crypto) (s : SessionState)
    (message : Envelope) (pack : Pack) (ri : RInfo) (ht : pack.t = "dat")
    (hb : s.device.bound = true) (hc : pack.cols = none) :
    handleResponse crypto s ⟨Except.ok (message, pack), ri⟩ =
      { state := { s with packetReceivedNo := s.packetReceivedNo + 1 },
        effects := [], err := some JsError.typeError } := by
  simp [handleResponse, ht, hb, hc]

theorem step_dat_nodat_nil (crypto : Crypto) (s : SessionState)
    (message : Envelope) (pack : Pack) (ri : RInfo) (ht : pack.t = "dat")
    (hb : s.device.bound = true) (hc : pack.cols = some [])
    (hd : pack.dat = none) :
    handleResponse crypto s ⟨Except.ok (message, pack), ri⟩ =
      { state := { s with packetReceivedNo := s.packetReceivedNo + 1 },
        effects := [Effect.onStatus], err := none } := by
  simp [handleResponse, ht, hb, hc, hd]

theorem step_dat_nodat_cons (crypto : Crypto) (s : SessionState)
    (message : Envelope) (pack : Pack) (ri : RInfo) (c0 : String)
    (cs : List String) (ht : pack.t = "dat") (hb : s.device.bound = true)
    (hc : pack.cols = some (c0 :: cs)) (hd : pack.dat = none) :
    handleResponse crypto s ⟨Except.ok (message, pack), ri⟩ =
      { state := { s with packetReceivedNo := s.packetReceivedNo + 1 },
        effects := [], err := some JsError.typeError } := by
  simp [handleResponse, ht, hb, hc, hd]

theorem step_res_noopt (crypto : Crypto) (s : SessionState)
    (message : Envelope) (pack : Pack) (ri : RInfo) (ht : pack.t = "res")
    (hb : s.device.bound = true) (ho : pack.opt = none) :
    handleResponse crypto s ⟨Except.ok (message, pack), ri⟩ =
      { state := { s with packetReceivedNo := s.packetReceivedNo + 1 },
        effects := [], err := some JsError.typeError } := by
  simp [handleResponse, ht, hb, ho]

theorem step_res_noval_nil (crypto : Crypto) (s : SessionState)
    (message : Envelope) (pack : Pack) (ri : RInfo) (ht : pack.t = "res")
    (hb : s.device.bound = true) (ho : pack.opt = some [])
    (hp : pack.p = none) (hv : pack.val = none) :
    handleResponse crypto s ⟨Except.ok (message, pack), ri⟩ =
      { state := { s with packetReceivedNo := s.packetReceivedNo + 1 },
        effects := [Effect.onUpdate], err := none } := by
  simp [handleResponse, ht, hb, ho, hp, hv]

theorem step_res_noval_cons (crypto : Crypto) (s : SessionState)
    (message : Envelope) (pack : Pack) (ri : RInfo) (o0 : String)
    (os : List String) (ht : pack.t = "res") (hb : s.device.bound = true)
    (ho : pack.opt = some (o0 :: os)) (hp : pack.p = none)
    (hv : pack.val = none) :
    handleResponse crypto s ⟨Except.ok (message, pack), ri⟩ =
      { state := { s with packetReceivedNo := s.packetReceivedNo + 1 },
        effects := [], err := some JsError.typeError } := by
  simp [handleResponse, ht, hb, ho, hp, hv]

theorem step_nondev_state (crypto : Crypto) (s : SessionState)
    (message : Envelope) (pack : Pack) (ri : RInfo) (hdev : pack.t ≠ "dev") :
    ∃ d, (handleResponse crypto s ⟨Except.ok (message, pack), ri⟩).state
        = { s with device := d,
                   packetReceivedNo := s.packetReceivedNo + 1 } ∧
      (d = s.device ∨ d = confirmBinding s.device message.cid pack.key ∨
       ∃ cs vs, d = { s.device with
                        props := applyPairs s.device.props cs vs }) := by
  by_cases hbk : pack.t = "bindok"
  · by_cases hid : jsTruthy s.device.id = true
    · rw [step_bindok crypto s message pack ri hbk hid]
      exact ⟨_, rfl, Or.inr (Or.inl rfl)⟩
    · rw [step_unknown crypto s message pack ri hdev
        (fun _ => by simpa using hid)
        (fun h => by rw [hbk] at h; exact absurd h (by decide))
        (fun h => by rw [hbk] at h; exact absurd h (by decide))]
      exact ⟨_, rfl, Or.inl rfl⟩
  · by_cases hdat : pack.t = "dat"
    · by_cases hb : s.device.bound = true
      · cases hc : pack.cols with
        | none =>
          rw [step_dat_nocols crypto s message pack ri hdat hb hc]
          exact ⟨_, rfl, Or.inl rfl⟩
        | some cs =>
          cases hd : pack.dat with
          | some vs =>
            rw [step_dat crypto s message pack ri cs vs hdat hb hc hd]
            exact ⟨_, rfl, Or.inr (Or.inr ⟨cs, vs, rfl⟩)⟩
          | none =>
            cases cs with
            | nil =>
              rw [step_dat_nodat_nil crypto s message pack ri hdat hb hc hd]
              exact ⟨_, rfl, Or.inl rfl⟩
            | cons c0 cs =>
              rw [step_dat_nodat_cons crypto s message pack ri c0 cs hdat hb
                hc hd]
              exact ⟨_, rfl, Or.inl rfl⟩
      · rw [step_unknown crypto s message pack ri hdev
          (fun h => absurd h hbk) (fun _ => by simpa using hb)
          (fun h => by rw [hdat] at h; exact absurd h (by decide))]
        exact ⟨_, rfl, Or.inl rfl⟩
    · by_cases hres : pack.t = "res"
      · by_cases hb : s.device.bound = true
        · cases ho : pack.opt with
          | none =>
            rw [step_res_noopt crypto s message pack ri hres hb ho]
            exact ⟨_, rfl, Or.inl rfl⟩
          | some os =>
            cases hp : pack.p with
            | some ps =>
              rw [step_res_p crypto s message pack ri os ps hres hb ho hp]
              exact ⟨_, rfl, Or.inr (Or.inr ⟨os, ps, rfl⟩)⟩
            | none =>
              cases hv : pack.val with
              | some vs =>
                rw [step_res_val crypto s message pack ri os vs hres hb ho hp
                  hv]
                exact ⟨_, rfl, Or.inr (Or.inr ⟨os, vs, rfl⟩)⟩
              | none =>
                cases os with
                | nil =>
                  rw [step_res_noval_nil crypto s message pack ri hres hb ho
                    hp hv]
                  exact ⟨_, rfl, Or.inl rfl⟩
                | cons o0 os =>
                  rw [step_res_noval_cons crypto s message pack ri o0 os hres
                    hb ho hp hv]
                  exact ⟨_, rfl, Or.inl rfl⟩
        · rw [step_unknown crypto s message pack ri hdev
            (fun h => absurd h hbk) (fun h => absurd h hdat)
            (fun _ => by simpa using hb)]
          exact ⟨_, rfl, Or.inl rfl⟩
      · rw [step_unknown crypto s message pack ri hdev
          (fun h => absurd h hbk) (fun h => absurd h hdat)
          (fun h => absurd h hres)]
        exact ⟨_, rfl, Or.inl rfl⟩

theorem step_version (crypto : Crypto) (s : SessionState) (m : Msg) :
    (handleResponse crypto s m).state.encryptionVersion = s.encryptionVersion
    ∨ (s.encryptionVersion = 1
       ∧ (handleResponse crypto s m).state.encryptionVersion = 2
       ∧ msgIsDevV2 m = true) := by
  obtain ⟨inp, ri⟩ := m
  cases inp with
  | error e => left; rw [step_err]
  | ok mp =>
    obtain ⟨message, pack⟩ := mp
    by_cases ht : pack.t = "dev"
    · by_cases hcond : s.encryptionVersion = 1 ∧ verIsV2 pack.ver = true
      · rw [step_dev_v2 crypto s message pack ri ht hcond.1 hcond.2]
        exact Or.inr ⟨hcond.1, rfl, by simp [msgIsDevV2, ht, hcond.2]⟩
      · rw [step_dev_v1 crypto s message pack ri ht hcond]
        exact Or.inl rfl
    · obtain ⟨d, hst, _⟩ := step_nondev_state crypto s message pack ri ht
      left
      rw [hst]

theorem step_bound_mono (crypto : Crypto) (s : SessionState) (m : Msg)
    (hdev : msgIsDev m = false) (hb : s.device.bound = true) :
    (handleResponse crypto s m).state.device.bound = true := by
  obtain ⟨inp, ri⟩ := m
  cases inp with
  | error e => rw [step_err]; exact hb
  | ok mp =>
    obtain ⟨message, pack⟩ := mp
    have ht : pack.t ≠ "dev" := by simpa [msgIsDev] using hdev
    obtain ⟨d, hst, hd⟩ := step_nondev_state crypto s message pack ri ht
    rw [hst]
    rcases hd with h | h | ⟨cs, vs, h⟩
    · rw [h]; exact hb
    · rw [h]; rfl
    · rw [h]; exact hb

theorem step_props_presence (crypto : Crypto) (s : SessionState) (m : Msg)
    (c : String) (hdev : msgIsDev m = false)
    (hp : s.device.props c ≠ none) :
    (handleResponse crypto s m).state.device.props c ≠ none := by
  obtain ⟨inp, ri⟩ := m
  cases inp with
  | error e => rw [step_err]; exact hp
  | ok mp =>
    obtain ⟨message, pack⟩ := mp
    have ht : pack.t ≠ "dev" := by simpa [msgIsDev] using hdev
    obtain ⟨d, hst, hd⟩ := step_nondev_state crypto s message pack ri ht
    rw [hst]
    rcases hd with h | h | ⟨cs, vs, h⟩
    · rw [h]; exact hp
    · rw [h]; exact hp
    · rw [h]; exact applyPairs_ne_none _ _ _ _ hp

theorem run_bound_mono (crypto : Crypto) (s : SessionState) (ms : List Msg)
    (hdev : ∀ m ∈ ms, msgIsDev m = false) (hb : s.device.bound = true) :
    (run crypto s ms).1.device.bound = true := by
  induction ms generalizing s with
  | nil => exact hb
  | cons m ms ih =>
    have hm : msgIsDev m = false := hdev m (List.mem_cons_self m ms)
    have hms : ∀ x ∈ ms, msgIsDev x = false :=
      fun x hx => hdev x (List.mem_cons_of_mem m hx)
    have hstep := step_bound_mono crypto s m hm hb
    rw [run]
    cases he : (handleResponse crypto s m).err with
    | some e => exact hstep
    | none => exact ih _ hms hstep

theorem run_props_presence (crypto : Crypto) (s : SessionState)
    (ms : List Msg) (c : String) (hdev : ∀ m ∈ ms, msgIsDev m = false)
    (hp : s.device.props c ≠ none) :
    (run crypto s ms).1.device.props c ≠ none := by
  induction ms generalizing s with
  | nil => exact hp
  | cons m ms ih =>
    have hm : msgIsDev m = false := hdev m (List.mem_cons_self m ms)
    have hms : ∀ x ∈ ms, msgIsDev x = false :=
      fun x hx => hdev x (List.mem_cons_of_mem m hx)
    have hstep := step_props_presence crypto s m c hm hp
    rw [run]
    cases he : (handleResponse crypto s m).err with
    | some e => exact hstep
    | none => exact ih _ hms hstep

theorem step_version_two (crypto : Crypto) (s : SessionState) (m : Msg)
    (h : s.encryptionVersion = 2) :
    (handleResponse crypto s m).state.encryptionVersion = 2 := by
  rcases step_version crypto s m with hv | ⟨h1, _, _⟩
  · rw [hv, h]
  · rw [h] at h1; exact absurd h1 (by decide)

theorem sendBindRequest_device (crypto : Crypto) (s : SessionState) :
    (sendBindRequest crypto s).1.device = s.device ∧
    (sendBindRequest crypto s).1.encryptionVersion = s.encryptionVersion :=
  ⟨rfl, rfl⟩

theorem sendBindRequest_v1_req (crypto : Crypto) (s : SessionState)
    (h : s.encryptionVersion = 1) :
    (sendBindRequest crypto s).2 =
      { tcid := s.device.id, cid := "app", i := 1, t := "pack", uid := 0,
        tag := none,
        pack := some (crypto.encrypt (bindMsg s.device.id) none) } := by
  simp [sendBindRequest, h]

theorem sendBindRequest_v2_req (crypto : Crypto) (s : SessionState)
    (h : s.encryptionVersion = 2)
    (htag : (crypto.encrypt_v2 (bindMsg s.device.id) none).2 ≠ "") :
    (sendBindRequest crypto s).2 =
      { tcid := s.device.id, cid := "app", i := 1, t := "pack", uid := 0,
        tag := some (crypto.encrypt_v2 (bindMsg s.device.id) none).2,
        pack := some (crypto.encrypt_v2 (bindMsg s.device.id) none).1 } := by
  simp [sendBindRequest, h, htag]

theorem sendBindRequest_v2_pack (crypto : Crypto) (s : SessionState)
    (h : s.encryptionVersion = 2) :
    (sendBindRequest crypto s).2.pack =
      some (crypto.encrypt_v2 (bindMsg s.device.id) none).1 := by
  simp only [sendBindRequest, h]
  norm_num
  split <;> rfl

theorem sendRequest_v1_req (crypto : Crypto) (s : SessionState)
    (msg : OutPack) (h : s.encryptionVersion = 1) :
    (sendRequest crypto s msg).2 =
      { tcid := s.device.id, cid := "app", i := 0, t := "pack", uid := 0,
        tag := none,
        pack := some (crypto.encrypt msg s.device.key) } := by
  simp [sendRequest, h]

theorem sendRequest_v2_req (crypto : Crypto) (s : SessionState)
    (msg : OutPack) (h : s.encryptionVersion = 2)
    (htag : (crypto.encrypt_v2 msg s.device.key).2 ≠ "") :
    (sendRequest crypto s msg).2 =
      { tcid := s.device.id, cid := "app", i := 0, t := "pack", uid := 0,
        tag := some (crypto.encrypt_v2 msg s.device.key).2,
        pack := some (crypto.encrypt_v2 msg s.device.key).1 } := by
  simp [sendRequest, h, htag]

/-- Modelled from the spec: a concrete instance of the external cryptography
provider, with version 2 returning a non-empty authentication tag, as the
interface contract describes. Used to instantiate witnesses. -/
def cryptoModel : Crypto :=
  { encrypt := fun _ _ => "ct1",
    encrypt_v2 := fun _ _ => ("ct2", "tag2") }

/-- Fixture: datagram source used in concrete scenarios. -/
def rinfoEx : RInfo := { address := "10.0.0.5", port := 7000 }

/-- Fixture: outer envelope with the device id in its `cid` field. -/
def envEx : Envelope := { cid := some "A1B2", i := some 1 }

/-- Fixture: a `dev` handshake reply with no firmware version field. -/
def devPackPlain : Pack :=
  { t := "dev", cid := some "A1B2", name := some "AC1" }

/-- Fixture: a `dev` handshake reply whose version string has the `V2.`
prefix and whose payload id differs from the envelope id. -/
def devPackV2 : Pack :=
  { t := "dev", cid := some "B2C3", name := some "AC2",
    ver := some "V2.1" }

/-- Fixture: a `bindok` confirmation carrying a session key. -/
def bindokPack : Pack := { t := "bindok", key := some "KEY1" }

/-- Fixture: a `dat` status payload with two codes. -/
def datPackA : Pack :=
  { t := "dat", cols := some ["Pow", "SetTem"], dat := some [1, 24] }

/-- Fixture: a `dat` status payload overlapping `datPackA` on `Pow`. -/
def datPackB : Pack := { t := "dat", cols := some ["Pow"], dat := some [0] }

/-- Fixture: a `res` payload carrying only the alternate `val` field. -/
def resPackVal : Pack :=
  { t := "res", opt := some ["Pow"], val := some [0] }

/-- Fixture: inbound datagram carrying `devPackPlain`. -/
def msgDev : Msg := ⟨Except.ok (envEx, devPackPlain), rinfoEx⟩

/-- Fixture: inbound datagram carrying `devPackV2`. -/
def msgDevV2 : Msg := ⟨Except.ok (envEx, devPackV2), rinfoEx⟩

/-- Fixture: inbound datagram carrying `bindokPack`. -/
def msgBindok : Msg := ⟨Except.ok (envEx, bindokPack), rinfoEx⟩

/-- Fixture: inbound datagram carrying `datPackA`. -/
def msgDatA : Msg := ⟨Except.ok (envEx, datPackA), rinfoEx⟩

/-- Fixture: inbound datagram carrying `datPackB`. -/
def msgDatB : Msg := ⟨Except.ok (envEx, datPackB), rinfoEx⟩

/-- Fixture: inbound datagram carrying `resPackVal`. -/
def msgResVal : Msg := ⟨Except.ok (envEx, resPackVal), rinfoEx⟩

/-- Fixture: a session state as reached after a plain `dev` reply followed
by a `bindok`: device registered from `envEx` at `rinfoEx`, bound, with the
session key stored, still on encryption version 1. -/
def boundStateEx : SessionState :=
  { device := { id := some "A1B2", name := some "AC1",
                address := some "10.0.0.5", port := some 7000,
                bound := true, key := some "KEY1", props := emptyProps },
    encryptionVersion := 1, tag := "", packetSentNo := 1,
    packetReceivedNo := 2 }


theorem sendBindRequest_i (crypto : Crypto) (s : SessionState) :
    (sendBindRequest crypto s).2.i = 1 := by
  simp only [sendBindRequest]
  split_ifs <;> rfl

theorem step_dev_v1_full (crypto : Crypto) (s : SessionState)
    (env : Envelope) (pack : Pack) (ri : RInfo) (ht : pack.t = "dev")
    (hv : s.encryptionVersion = 1) (hV2 : verIsV2 pack.ver = false) :
    handleResponse crypto s ⟨Except.ok (env, pack), ri⟩ =
      { state :=
          { device := setDevice s.device env.cid pack.name ri.address
              ri.port,
            encryptionVersion := 1, tag := "",
            packetSentNo := s.packetSentNo + 1,
            packetReceivedNo := s.packetReceivedNo + 1 },
        effects := [Effect.logNewDevice env.cid (some ri.address),
          Effect.sent
            { tcid := env.cid, cid := "app", i := 1, t := "pack", uid := 0,
              tag := none,
              pack := some (crypto.encrypt (bindMsg env.cid) none) }],
        err := none } := by
  simp [handleResponse, sendBindRequest, setDevice, ht, hv, hV2]

theorem step_dev_v2_full (crypto : Crypto) (s : SessionState)
    (env : Envelope) (pack : Pack) (ri : RInfo) (ht : pack.t = "dev")
    (hv : s.encryptionVersion = 1) (hV2 : verIsV2 pack.ver = true) :
    handleResponse crypto s ⟨Except.ok (env, pack), ri⟩ =
      { state :=
          { device := setDevice s.device pack.cid pack.name ri.address
              ri.port,
            encryptionVersion := 2,
            tag := (crypto.encrypt_v2 (bindMsg pack.cid) none).2,
            packetSentNo := s.packetSentNo + 1,
            packetReceivedNo := s.packetReceivedNo + 1 },
        effects := [Effect.logNewDevice pack.cid (some ri.address),
          Effect.sent
            (if (crypto.encrypt_v2 (bindMsg pack.cid) none).2 = "" then
              { tcid := pack.cid, cid := "app", i := 1, t := "pack",
                uid := 0, tag := none,
                pack := some (crypto.encrypt_v2 (bindMsg pack.cid) none).1 }
            else
              { tcid := pack.cid, cid := "app", i := 1, t := "pack",
                uid := 0,
                tag := some (crypto.encrypt_v2 (bindMsg pack.cid) none).2,
                pack :=
                  some (crypto.encrypt_v2 (bindMsg pack.cid) none).1 })],
        err := none } := by
  simp [handleResponse, sendBindRequest, setDevice, ht, hv, hV2]

/-- Claim C1: for every inbound `dev` payload processed while the session is
on encryption version 1, if the payload version string has the `V2.` prefix
then the version becomes 2 and the device id is taken from the payload
`cid`, otherwise the version stays 1 and the device id is taken from the
envelope `cid`; in both cases a bind request is sent whose encrypted body
was produced by the encrypt operation of the negotiated version. -/
theorem claim_C1 (crypto : Crypto) (s : SessionState) (env : Envelope)
    (pack : Pack) (ri : RInfo) (hv : s.encryptionVersion = 1)
    (ht : pack.t = "dev") :
    (verIsV2 pack.ver = true →
      (handleResponse crypto s
          ⟨Except.ok (env, pack), ri⟩).state.encryptionVersion = 2 ∧
      (handleResponse crypto s
          ⟨Except.ok (env, pack), ri⟩).state.device.id = pack.cid) ∧
    (verIsV2 pack.ver = false →
      (handleResponse crypto s
          ⟨Except.ok (env, pack), ri⟩).state.encryptionVersion = 1 ∧
      (handleResponse crypto s
          ⟨Except.ok (env, pack), ri⟩).state.device.id = env.cid) ∧
    (∃ req, Effect.sent req ∈
        (handleResponse crypto s ⟨Except.ok (env, pack), ri⟩).effects ∧
      req.i = 1 ∧
      req.pack = some (if (handleResponse crypto s
            ⟨Except.ok (env, pack), ri⟩).state.encryptionVersion = 2
        then (crypto.encrypt_v2 (bindMsg (handleResponse crypto s
            ⟨Except.ok (env, pack), ri⟩).state.device.id) none).1
        else crypto.encrypt (bindMsg (handleResponse crypto s
            ⟨Except.ok (env, pack), ri⟩).state.device.id) none)) := by
  by_cases hV2 : verIsV2 pack.ver = true
  · rw [step_dev_v2_full crypto s env pack ri ht hv hV2]
    refine ⟨fun _ => ⟨rfl, by simp [setDevice]⟩,
      fun hc => by rw [hV2] at hc; exact Bool.noConfusion hc, ?_⟩
    refine ⟨_, List.mem_cons_of_mem _ (List.mem_cons_self _ _), ?_, ?_⟩
    · split <;> rfl
    · split <;> simp [setDevice]
  · have hV2f : verIsV2 pack.ver = false := by simpa using hV2
    rw [step_dev_v1_full crypto s env pack ri ht hv hV2f]
    refine ⟨fun hc => absurd hc hV2, fun _ => ⟨rfl, by simp [setDevice]⟩, ?_⟩
    refine ⟨_, List.mem_cons_of_mem _ (List.mem_cons_self _ _), rfl, ?_⟩
    simp [setDevice]

/-- Witness for claim C1, at the concrete fixtures: a plain `dev` reply
stays on version 1 and takes the envelope id; a `V2.1` reply switches to
version 2 and takes the payload id. -/
theorem claim_C1_witness :
    ((handleResponse cryptoModel initState
        msgDev).state.encryptionVersion = 1 ∧
     (handleResponse cryptoModel initState msgDev).state.device.id
        = some "A1B2") ∧
    ((handleResponse cryptoModel initState
        msgDevV2).state.encryptionVersion = 2 ∧
     (handleResponse cryptoModel initState msgDevV2).state.device.id
        = some "B2C3") := by
  constructor
  · exact (claim_C1 cryptoModel initState envEx devPackPlain rinfoEx rfl
      rfl).2.1 (by decide)
  · exact (claim_C1 cryptoModel initState envEx devPackV2 rinfoEx rfl
      rfl).1 (by decide)

theorem step_dat_props (crypto : Crypto) (s : SessionState) (env : Envelope)
    (pack : Pack) (ri : RInfo) (cols : List String) (vs : List Int)
    (ht : pack.t = "dat") (hb : s.device.bound = true)
    (hc : pack.cols = some cols) (hd : pack.dat = some vs) :
    (handleResponse crypto s
        ⟨Except.ok (env, pack), ri⟩).state.device.props
      = applyPairs s.device.props cols vs ∧
    (handleResponse crypto s ⟨Except.ok (env, pack), ri⟩).state.device.bound
      = s.device.bound := by
  rw [step_dat crypto s env pack ri cols vs ht hb hc hd]
  exact ⟨rfl, rfl⟩

/-- Claim C2: `dat` and `res` payloads are applied to the properties map
exactly when the device is bound: when not bound the device is unchanged
and the payload is only logged; when bound each positionally aligned
(code, value) pair is written and the matching callback fires; and after
two `dat` payloads, every code of the second payload holds the value
determined by the second payload alone (last write wins). -/
theorem claim_C2 (crypto : Crypto) :
    (∀ s env pack ri, s.device.bound = false →
      (pack.t = "dat" ∨ pack.t = "res") →
      (handleResponse crypto s ⟨Except.ok (env, pack), ri⟩).state.device
        = s.device ∧
      (handleResponse crypto s ⟨Except.ok (env, pack), ri⟩).effects
        = [Effect.logUnknown pack.t]) ∧
    (∀ s env pack ri cols vs, s.device.bound = true → pack.t = "dat" →
      pack.cols = some cols → pack.dat = some vs →
      (handleResponse crypto s
          ⟨Except.ok (env, pack), ri⟩).state.device.props
        = applyPairs s.device.props cols vs ∧
      Effect.onStatus ∈
        (handleResponse crypto s ⟨Except.ok (env, pack), ri⟩).effects) ∧
    (∀ s env pack ri opts ps, s.device.bound = true → pack.t = "res" →
      pack.opt = some opts → pack.p = some ps →
      (handleResponse crypto s
          ⟨Except.ok (env, pack), ri⟩).state.device.props
        = applyPairs s.device.props opts ps ∧
      Effect.onUpdate ∈
        (handleResponse crypto s ⟨Except.ok (env, pack), ri⟩).effects) ∧
    (∀ s env1 pack1 ri1 env2 pack2 ri2 cols1 vs1 cols2 vs2,
      s.device.bound = true →
      pack1.t = "dat" → pack1.cols = some cols1 → pack1.dat = some vs1 →
      pack2.t = "dat" → pack2.cols = some cols2 → pack2.dat = some vs2 →
      ∀ c, c ∈ cols2 →
        (handleResponse crypto
            (handleResponse crypto s ⟨Except.ok (env1, pack1), ri1⟩).state
            ⟨Except.ok (env2, pack2), ri2⟩).state.device.props c
          = applyPairs emptyProps cols2 vs2 c) := by
  refine ⟨?_, ?_, ?_, ?_⟩
  · intro s env pack ri hb hts
    have hd : pack.t ≠ "dev" := by
      rcases hts with h | h <;> rw [h] <;> decide
    rw [step_unknown crypto s env pack ri hd
      (fun h => by
        rcases hts with h2 | h2 <;> rw [h2] at h <;>
          exact absurd h (by decide))
      (fun _ => hb) (fun _ => hb)]
    exact ⟨rfl, rfl⟩
  · intro s env pack ri cols vs hb ht hc hdd
    rw [step_dat crypto s env pack ri cols vs ht hb hc hdd]
    exact ⟨rfl, List.mem_cons_self _ _⟩
  · intro s env pack ri opts ps hb ht ho hp
    rw [step_res_p crypto s env pack ri opts ps ht hb ho hp]
    exact ⟨rfl, List.mem_cons_self _ _⟩
  · intro s env1 pack1 ri1 env2 pack2 ri2 cols1 vs1 cols2 vs2 hb ht1 hc1
      hd1 ht2 hc2 hd2 c hcm
    obtain ⟨hp1, hbd1⟩ := step_dat_props crypto s env1 pack1 ri1 cols1 vs1
      ht1 hb hc1 hd1
    have hb1 : (handleResponse crypto s
        ⟨Except.ok (env1, pack1), ri1⟩).state.device.bound = true := by
      rw [hbd1]; exact hb
    obtain ⟨hp2, _⟩ := step_dat_props crypto
      (handleResponse crypto s ⟨Except.ok (env1, pack1), ri1⟩).state
      env2 pack2 ri2 cols2 vs2 ht2 hb1 hc2 hd2
    rw [show (handleResponse crypto
        (handleResponse crypto s ⟨Except.ok (env1, pack1), ri1⟩).state
        ⟨Except.ok (env2, pack2), ri2⟩).state.device.props c
      = applyPairs (handleResponse crypto s
          ⟨Except.ok (env1, pack1), ri1⟩).state.device.props cols2 vs2 c
      from congrFun hp2 c]
    exact applyPairs_mem_indep _ _ _ _ _ hcm

/-- Witness for claim C2 at the concrete fixtures: the bound device applies
a `dat` payload, and after two overlapping `dat` payloads the overlapped
code holds the value of the second payload. -/
theorem claim_C2_witness :
    (handleResponse cryptoModel boundStateEx msgDatA).state.device.props
        "SetTem" = some (some 24) ∧
    (handleResponse cryptoModel
        (handleResponse cryptoModel boundStateEx msgDatA).state
        msgDatB).state.device.props "Pow" = some (some 0) := by
  have h2 := (claim_C2 cryptoModel).2.1 boundStateEx envEx datPackA rinfoEx
    ["Pow", "SetTem"] [1, 24] rfl rfl rfl rfl
  have h4 := (claim_C2 cryptoModel).2.2.2 boundStateEx envEx datPackA
    rinfoEx envEx datPackB rinfoEx ["Pow", "SetTem"] [1, 24] ["Pow"] [0]
    rfl rfl rfl rfl rfl rfl rfl "Pow" (by decide)
  simp only [msgDatA, msgDatB]
  constructor
  · rw [congrFun h2.1 "SetTem"]; decide
  · rw [h4]; decide

/-- Fixture: an envelope whose `cid` differs from the established device
id. -/
def envOther : Envelope := { cid := some "ZZZZ", i := some 1 }

/-- Claim C3: a `bindok` payload is honored only when a device id is set:
with a truthy id the handler stores the payload key, sets bound, starts the
3000 millisecond status interval and fires the connected callback; with no
truthy id the device state is unchanged and the payload is only logged. -/
theorem claim_C3 (crypto : Crypto) (s : SessionState) (env : Envelope)
    (pack : Pack) (ri : RInfo) :
    (pack.t = "bindok" → jsTruthy s.device.id = true →
      (handleResponse crypto s
          ⟨Except.ok (env, pack), ri⟩).state.device.bound = true ∧
      (handleResponse crypto s
          ⟨Except.ok (env, pack), ri⟩).state.device.key = pack.key ∧
      Effect.startStatusInterval 3000 ∈
        (handleResponse crypto s ⟨Except.ok (env, pack), ri⟩).effects ∧
      Effect.onConnected ∈
        (handleResponse crypto s ⟨Except.ok (env, pack), ri⟩).effects) ∧
    (pack.t = "bindok" → jsTruthy s.device.id = false →
      (handleResponse crypto s ⟨Except.ok (env, pack), ri⟩).state.device
        = s.device ∧
      (handleResponse crypto s
          ⟨Except.ok (env, pack), ri⟩).state.encryptionVersion
        = s.encryptionVersion ∧
      (handleResponse crypto s ⟨Except.ok (env, pack), ri⟩).state.tag
        = s.tag ∧
      (handleResponse crypto s ⟨Except.ok (env, pack), ri⟩).effects
        = [Effect.logUnknown "bindok"] ∧
      (handleResponse crypto s ⟨Except.ok (env, pack), ri⟩).err = none) := by
  constructor
  · intro ht hid
    rw [step_bindok crypto s env pack ri ht hid]
    refine ⟨rfl, rfl, ?_, ?_⟩ <;> simp
  · intro ht hid
    rw [step_unknown crypto s env pack ri
      (by rw [ht]; decide) (fun _ => hid)
      (fun h => by rw [ht] at h; exact absurd h (by decide))
      (fun h => by rw [ht] at h; exact absurd h (by decide))]
    rw [ht]
    exact ⟨rfl, rfl, rfl, rfl, rfl⟩

/-- Witness for claim C3: with the device id set, a `bindok` stores the key
and fires the connected callback; at the initial state (no id) the same
payload leaves the device unchanged. -/
theorem claim_C3_witness :
    ((handleResponse cryptoModel boundStateEx msgBindok).state.device.key
        = some "KEY1" ∧
     Effect.onConnected ∈
       (handleResponse cryptoModel boundStateEx msgBindok).effects) ∧
    (handleResponse cryptoModel initState msgBindok).state.device
      = initState.device := by
  refine ⟨⟨?_, ?_⟩, ?_⟩
  · exact ((claim_C3 cryptoModel boundStateEx envEx bindokPack rinfoEx).1
      rfl (by decide)).2.1
  · exact ((claim_C3 cryptoModel boundStateEx envEx bindokPack rinfoEx).1
      rfl (by decide)).2.2.2
  · exact ((claim_C3 cryptoModel initState envEx bindokPack rinfoEx).2
      rfl (by decide)).1

/-- Claim C10: processing a `bindok` while the device id is set mutates
only the bound flag and the key: id, name, address, port and properties
are unchanged (so the id carried by the bindok envelope never overwrites
the established id), and the session version and tag are untouched. -/
theorem claim_C10 (crypto : Crypto) (s : SessionState) (env : Envelope)
    (pack : Pack) (ri : RInfo) (ht : pack.t = "bindok")
    (hid : jsTruthy s.device.id = true) :
    (handleResponse crypto s ⟨Except.ok (env, pack), ri⟩).state.device.id
      = s.device.id ∧
    (handleResponse crypto s ⟨Except.ok (env, pack), ri⟩).state.device.name
      = s.device.name ∧
    (handleResponse crypto s
        ⟨Except.ok (env, pack), ri⟩).state.device.address
      = s.device.address ∧
    (handleResponse crypto s ⟨Except.ok (env, pack), ri⟩).state.device.port
      = s.device.port ∧
    (handleResponse crypto s
        ⟨Except.ok (env, pack), ri⟩).state.device.props
      = s.device.props ∧
    (handleResponse crypto s ⟨Except.ok (env, pack), ri⟩).state.device.bound
      = true ∧
    (handleResponse crypto s ⟨Except.ok (env, pack), ri⟩).state.device.key
      = pack.key ∧
    (handleResponse crypto s
        ⟨Except.ok (env, pack), ri⟩).state.encryptionVersion
      = s.encryptionVersion ∧
    (handleResponse crypto s ⟨Except.ok (env, pack), ri⟩).state.tag
      = s.tag := by
  rw [step_bindok crypto s env pack ri ht hid]
  exact ⟨rfl, rfl, rfl, rfl, rfl, rfl, rfl, rfl, rfl⟩

/-- Witness for claim C10: a `bindok` arriving in an envelope with a
different `cid` leaves the established device id in place. -/
theorem claim_C10_witness :
    (handleResponse cryptoModel boundStateEx
        ⟨Except.ok (envOther, bindokPack), rinfoEx⟩).state.device.id
      = some "A1B2" :=
  (claim_C10 cryptoModel boundStateEx envOther bindokPack rinfoEx rfl
    (by decide)).1

/-- Claim C9: a `res` payload processed while bound takes its values from
the primary field `p` when that field is present, and from the alternate
field `val` otherwise; in both cases the update callback fires. -/
theorem claim_C9 (crypto : Crypto) (s : SessionState) (env : Envelope)
    (pack : Pack) (ri : RInfo) (opts : List String)
    (hb : s.device.bound = true) (ht : pack.t = "res")
    (ho : pack.opt = some opts) :
    (∀ ps, pack.p = some ps →
      (handleResponse crypto s
          ⟨Except.ok (env, pack), ri⟩).state.device.props
        = applyPairs s.device.props opts ps ∧
      Effect.onUpdate ∈
        (handleResponse crypto s ⟨Except.ok (env, pack), ri⟩).effects) ∧
    (pack.p = none → ∀ vs, pack.val = some vs →
      (handleResponse crypto s
          ⟨Except.ok (env, pack), ri⟩).state.device.props
        = applyPairs s.device.props opts vs ∧
      Effect.onUpdate ∈
        (handleResponse crypto s ⟨Except.ok (env, pack), ri⟩).effects) := by
  constructor
  · intro ps hp
    rw [step_res_p crypto s env pack ri opts ps ht hb ho hp]
    exact ⟨rfl, List.mem_cons_self _ _⟩
  · intro hp vs hv
    rw [step_res_val crypto s env pack ri opts vs ht hb ho hp hv]
    exact ⟨rfl, List.mem_cons_self _ _⟩

/-- Witness for claim C9, the spec scenario: a `res` payload with only the
alternate `val` field still updates `Pow` to 0. -/
theorem claim_C9_witness :
    (handleResponse cryptoModel boundStateEx msgResVal).state.device.props
      "Pow" = some (some 0) := by
  have h := ((claim_C9 cryptoModel boundStateEx envEx resPackVal rinfoEx
    ["Pow"] rfl rfl rfl).2 rfl [0] rfl).1
  simp only [msgResVal]
  rw [congrFun h "Pow"]
  decide

theorem step_countConnected_zero (crypto : Crypto) (s : SessionState)
    (env : Envelope) (pack : Pack) (ri : RInfo) (hdev : pack.t ≠ "dev")
    (hbk : ¬(pack.t = "bindok" ∧ jsTruthy s.device.id = true)) :
    countConnected
      (handleResponse crypto s ⟨Except.ok (env, pack), ri⟩).effects
      = 0 := by
  by_cases hbk2 : pack.t = "bindok"
  · have hid : jsTruthy s.device.id = false := by
      rcases Bool.eq_false_or_eq_true (jsTruthy s.device.id) with htr | hf
      · exact absurd ⟨hbk2, htr⟩ hbk
      · exact hf
    rw [step_unknown crypto s env pack ri hdev (fun _ => hid)
      (fun h => by rw [hbk2] at h; exact absurd h (by decide))
      (fun h => by rw [hbk2] at h; exact absurd h (by decide))]
    rfl
  · by_cases hdat : pack.t = "dat"
    · by_cases hb : s.device.bound = true
      · cases hc : pack.cols with
        | none =>
          rw [step_dat_nocols crypto s env pack ri hdat hb hc]; rfl
        | some cs =>
          cases hd : pack.dat with
          | some vs =>
            rw [step_dat crypto s env pack ri cs vs hdat hb hc hd]; rfl
          | none =>
            cases cs with
            | nil =>
              rw [step_dat_nodat_nil crypto s env pack ri hdat hb hc hd]
              rfl
            | cons c0 cs =>
              rw [step_dat_nodat_cons crypto s env pack ri c0 cs hdat hb hc
                hd]
              rfl
      · rw [step_unknown crypto s env pack ri hdev (fun h => absurd h hbk2)
          (fun _ => by simpa using hb)
          (fun h => by rw [hdat] at h; exact absurd h (by decide))]
        rfl
    · by_cases hres : pack.t = "res"
      · by_cases hb : s.device.bound = true
        · cases ho : pack.opt with
          | none =>
            rw [step_res_noopt crypto s env pack ri hres hb ho]; rfl
          | some os =>
            cases hp : pack.p with
            | some ps =>
              rw [step_res_p crypto s env pack ri os ps hres hb ho hp]; rfl
            | none =>
              cases hv : pack.val with
              | some vs =>
                rw [step_res_val crypto s env pack ri os vs hres hb ho hp
                  hv]
                rfl
              | none =>
                cases os with
                | nil =>
                  rw [step_res_noval_nil crypto s env pack ri hres hb ho hp
                    hv]
                  rfl
                | cons o0 os =>
                  rw [step_res_noval_cons crypto s env pack ri o0 os hres hb
                    ho hp hv]
                  rfl
        · rw [step_unknown crypto s env pack ri hdev
            (fun h => absurd h hbk2) (fun h => absurd h hdat)
            (fun _ => by simpa using hb)]
          rfl
      · rw [step_unknown crypto s env pack ri hdev
          (fun h => absurd h hbk2) (fun h => absurd h hdat)
          (fun h => absurd h hres)]
        rfl

/-- Counterexample to claim C4 as stated: with the device id set, every
further `bindok` re-fires the connected callback, so a session that
processes a `dev` reply and then two `bindok` payloads fires it twice. -/
theorem claim_C4_cex :
    countConnected
      (run cryptoModel initState [msgDev, msgBindok, msgBindok]).2 = 2 := by
  decide

/-- Claim C4 (amended): processing one inbound payload fires the connected
callback exactly once when the payload is a `bindok` and the device id is
truthy, and zero times otherwise; there is no once-per-session guard, so
each such `bindok` fires it again. -/
theorem claim_C4 (crypto : Crypto) (s : SessionState) (env : Envelope)
    (pack : Pack) (ri : RInfo) :
    countConnected
      (handleResponse crypto s ⟨Except.ok (env, pack), ri⟩).effects
      = if pack.t = "bindok" ∧ jsTruthy s.device.id = true then 1
        else 0 := by
  by_cases hcase : pack.t = "bindok" ∧ jsTruthy s.device.id = true
  · rw [if_pos hcase, step_bindok crypto s env pack ri hcase.1 hcase.2]
    rfl
  · rw [if_neg hcase]
    by_cases ht : pack.t = "dev"
    · by_cases hcond : s.encryptionVersion = 1 ∧ verIsV2 pack.ver = true
      · rw [step_dev_v2 crypto s env pack ri ht hcond.1 hcond.2]; rfl
      · rw [step_dev_v1 crypto s env pack ri ht hcond]; rfl
    · exact step_countConnected_zero crypto s env pack ri ht hcase

/-- Counterexample to claim C5 as stated: after binding and a status
update, a later `dev` payload re-registers the device, resetting `bound`
to false and clearing the properties map. -/
theorem claim_C5_cex :
    (run cryptoModel initState
        [msgDev, msgBindok, msgDatA]).1.device.bound = true ∧
    (run cryptoModel initState [msgDev, msgBindok, msgDatA]).1.device.props
        "Pow" = some (some 1) ∧
    (run cryptoModel initState
        [msgDev, msgBindok, msgDatA, msgDev]).1.device.bound = false ∧
    (run cryptoModel initState
        [msgDev, msgBindok, msgDatA, msgDev]).1.device.props "Pow"
      = none := by
  refine ⟨by decide, by decide, by decide, by decide⟩

/-- Claim C5 (amended): across any sequence of processed inbound payloads
that contains no `dev` payload, a true `bound` flag stays true and
properties entries are never removed; a later `dev` payload, however,
resets `bound` and clears the properties. -/
theorem claim_C5 (crypto : Crypto) (s : SessionState) (ms : List Msg)
    (hdev : ∀ m ∈ ms, msgIsDev m = false) :
    (s.device.bound = true → (run crypto s ms).1.device.bound = true) ∧
    (∀ c, s.device.props c ≠ none →
      (run crypto s ms).1.device.props c ≠ none) :=
  ⟨fun hb => run_bound_mono crypto s ms hdev hb,
   fun c hp => run_props_presence crypto s ms c hdev hp⟩

/-- Witness for the amended claim C5: a bound device with a stored `Pow`
property stays bound and keeps a `Pow` entry across a dat and a bindok
payload. -/
theorem claim_C5_witness :
    (run cryptoModel boundStateEx [msgDatA, msgBindok]).1.device.bound
      = true ∧
    (run cryptoModel (handleResponse cryptoModel boundStateEx
        msgDatA).state [msgDatB, msgBindok]).1.device.props "Pow"
      ≠ none := by
  constructor
  · exact (claim_C5 cryptoModel boundStateEx [msgDatA, msgBindok]
      (by decide)).1 rfl
  · exact (claim_C5 cryptoModel
      (handleResponse cryptoModel boundStateEx msgDatA).state
      [msgDatB, msgBindok] (by decide)).2 "Pow" (by decide)

/-- Fixture: the initial state with the negotiated version forced to 2. -/
def stateV2 : SessionState := { initState with encryptionVersion := 2 }

/-- Counterexample to claim C6 as stated: a first `dev` reply without a
`V2.` version string leaves the version at 1, and a second `dev` reply
carrying `V2.1` still switches it to 2, so the change does not happen
during the very first `dev` reply. -/
theorem claim_C6_cex :
    (run cryptoModel initState [msgDev]).1.encryptionVersion = 1 ∧
    (run cryptoModel initState [msgDev, msgDevV2]).1.encryptionVersion
      = 2 := by
  refine ⟨by decide, by decide⟩

/-- Claim C6 (amended): the negotiated version starts at 1 and changes at
most once, only from 1 to 2, and only while processing a `dev` payload
whose version string has the `V2.` prefix while still on version 1 — not
necessarily the first `dev` reply; once at 2 it never changes. -/
theorem claim_C6 (crypto : Crypto) :
    initState.encryptionVersion = 1 ∧
    (∀ s m,
      (handleResponse crypto s m).state.encryptionVersion
        = s.encryptionVersion ∨
      (s.encryptionVersion = 1 ∧
       (handleResponse crypto s m).state.encryptionVersion = 2 ∧
       msgIsDevV2 m = true)) ∧
    (∀ s m, s.encryptionVersion = 2 →
      (handleResponse crypto s m).state.encryptionVersion = 2) :=
  ⟨rfl, fun s m => step_version crypto s m,
   fun s m h => step_version_two crypto s m h⟩

/-- Witness for the amended claim C6: once on version 2, processing a
further `dev` reply leaves the version at 2. -/
theorem claim_C6_witness :
    (handleResponse cryptoModel stateV2 msgDevV2).state.encryptionVersion
      = 2 :=
  (claim_C6 cryptoModel).2.2 stateV2 msgDevV2 rfl

/-- Claim C7: given the modelled provider contract that version 2 encrypt
returns a non-empty authentication tag, every envelope built by the bind
request and the steady-state request carries the `tag` field exactly when
the negotiated version is 2 (and it is the tag returned by the version 2
encrypt operation); under version 1 the field is absent. -/
theorem claim_C7 (crypto : Crypto) (s : SessionState) (msg : OutPack)
    (htag : ∀ m k, (crypto.encrypt_v2 m k).2 ≠ "")
    (hv : s.encryptionVersion = 1 ∨ s.encryptionVersion = 2) :
    ((sendBindRequest crypto s).2.tag ≠ none ↔ s.encryptionVersion = 2) ∧
    ((sendRequest crypto s msg).2.tag ≠ none ↔ s.encryptionVersion = 2) ∧
    (s.encryptionVersion = 2 →
      (sendBindRequest crypto s).2.tag
        = some (crypto.encrypt_v2 (bindMsg s.device.id) none).2 ∧
      (sendRequest crypto s msg).2.tag
        = some (crypto.encrypt_v2 msg s.device.key).2) ∧
    (s.encryptionVersion = 1 →
      (sendBindRequest crypto s).2.tag = none ∧
      (sendRequest crypto s msg).2.tag = none) := by
  rcases hv with h1 | h2
  · rw [sendBindRequest_v1_req crypto s h1,
      sendRequest_v1_req crypto s msg h1]
    refine ⟨by simp [h1], by simp [h1], ?_, fun _ => ⟨rfl, rfl⟩⟩
    intro h2
    rw [h1] at h2
    exact absurd h2 (by decide)
  · rw [sendBindRequest_v2_req crypto s h2 (htag _ _),
      sendRequest_v2_req crypto s msg h2 (htag _ _)]
    refine ⟨by simp [h2], by simp [h2], fun _ => ⟨rfl, rfl⟩, ?_⟩
    intro h1
    rw [h2] at h1
    exact absurd h1 (by decide)

/-- Witness for claim C7 at the concrete modelled provider: under version 2
both envelope kinds carry the returned tag, under version 1 the bind
envelope has no tag field. -/
theorem claim_C7_witness :
    (sendBindRequest cryptoModel stateV2).2.tag = some "tag2" ∧
    (sendRequest cryptoModel stateV2 (bindMsg none)).2.tag = some "tag2" ∧
    (sendBindRequest cryptoModel initState).2.tag = none := by
  have h2 := claim_C7 cryptoModel stateV2 (bindMsg none)
    (fun _ _ => show ("tag2" : String) ≠ "" by decide) (Or.inr rfl)
  have h1 := claim_C7 cryptoModel initState (bindMsg none)
    (fun _ _ => show ("tag2" : String) ≠ "" by decide) (Or.inl rfl)
  exact ⟨(h2.2.2.1 rfl).1, (h2.2.2.1 rfl).2, (h1.2.2.2 rfl).1⟩

/-- Counterexample to claim C8 as stated: on a decode failure the handler
emits no log effect and the exception escapes it, instead of the failure
being logged and the datagram silently discarded. -/
theorem claim_C8_cex :
    (handleResponse cryptoModel boundStateEx
        ⟨Except.error JsError.decodeError, rinfoEx⟩).effects = [] ∧
    (handleResponse cryptoModel boundStateEx
        ⟨Except.error JsError.decodeError, rinfoEx⟩).err
      = some JsError.decodeError := by
  refine ⟨by decide, by decide⟩

/-- Claim C8 (amended): a datagram whose outer JSON parse or decrypt fails
leaves the whole device state, the negotiated version and the tag
unchanged (only the diagnostic received counter advances) and produces no
effect, but the handler does not catch or log the failure: the exception
propagates out of the message callback. -/
theorem claim_C8 (crypto : Crypto) (s : SessionState) (e : JsError)
    (ri : RInfo) :
    (handleResponse crypto s ⟨Except.error e, ri⟩).state.device
      = s.device ∧
    (handleResponse crypto s ⟨Except.error e, ri⟩).state.encryptionVersion
      = s.encryptionVersion ∧
    (handleResponse crypto s ⟨Except.error e, ri⟩).state.tag = s.tag ∧
    (handleResponse crypto s
        ⟨Except.error e, ri⟩).state.packetReceivedNo
      = s.packetReceivedNo + 1 ∧
    (handleResponse crypto s ⟨Except.error e, ri⟩).effects = [] ∧
    (handleResponse crypto s ⟨Except.error e, ri⟩).err = some e := by
  rw [step_err]
  exact ⟨rfl, rfl, rfl, rfl, rfl, rfl⟩
